import Mathlib

/-!
Shallow embedding of the alert-filtering and irrigation-decision core of the
Flora2 plant-care controller (files `09_software/alert.py`,
`09_software/irrigation.py`, and the state save/load logic of
`09_software/main.py`), together with theorems settling the frozen claims.

Conventions of the embedding:
* Python integers (wall-clock timestamps from `time()`, durations) are `Int`;
  bit vectors built with `|=` / `<<` are `Nat`.
* All `time()` calls inside one evaluation cycle are modelled by a single
  `now` parameter (the host performs one cycle per wake period).
* The class-level `Alert.alert_tstamp` is threaded explicitly as `g`
  (global last-alert timestamp): every check takes the current value and
  returns the updated one.
* The `NameError` raised by the undefined name `true` in
  `Alert.check_system` (alert.py line 283) is modelled as `Except.error`,
  carrying the global timestamp and the instance state as they stand at the
  raise point.
-/

namespace Flora

/-- One monitored item as seen by `Alert.check_sensors`: the boolean value of
the attribute named `attr1` (low violation) and of `attr2` (high violation)
on one `Sensor` object. -/
structure SItem where
  low : Bool
  high : Bool
deriving DecidableEq

/-- The per-instance mutable fields of `Alert` that `check_sensors` /
`check_system` read and write: `self.tstamp`, `self.flag`, `self.val_ul`,
`self.val_oh`, `self.status` (alert.py lines 110-116). -/
structure AlertState where
  tstamp : Int
  flag : Bool
  val_ul : Nat
  val_oh : Nat
  status : Bool
deriving DecidableEq

/-- The immutable configuration of an `Alert` instance: `self.mode`,
`self.defer_time`, `self.repeat_time` (alert.py lines 101-107). -/
structure AlertCfg where
  mode : Nat
  defer_time : Int
  repeat_time : Int
deriving DecidableEq

/-- The initial per-instance state set by `Alert.__init__`
(alert.py lines 110-116). -/
def alertInit : AlertState :=
  { tstamp := 0, flag := false, val_ul := 0, val_oh := 0, status := false }

/-- Python `a & ~b` for nonnegative `a`, `b`: keeps exactly the bits of `a`
that are not set in `b` (used at alert.py line 187). Since the set bits of
`a &&& b` are a subset of those of `a`, this equals `a - (a &&& b)`. -/
def landNot (a b : Nat) : Nat :=
  a - Nat.land a b

/-- The state-vector loop of `check_sensors` (alert.py lines 178-184): bit
`i` is set iff item `i`'s flag is true (`val |= (1 << i)`). -/
def mkMask : List Bool → Nat
  | [] => 0
  | b :: rest => (if b then 1 else 0) + 2 * mkMask rest

/-- `Alert.repeat_expired` (alert.py lines 128-135):
`(time() - self.tstamp) > self.repeat_time`. -/
def repeat_expired (cfg : AlertCfg) (now tstamp : Int) : Bool :=
  decide (now - tstamp > cfg.repeat_time)

/-- `Alert.defer_expired` (alert.py lines 137-144):
`(time() - Alert.alert_tstamp) > self.defer_time`. -/
def defer_expired (cfg : AlertCfg) (now g : Int) : Bool :=
  decide (now - g > cfg.defer_time)

/-- The `if (change):` block shared verbatim by `check_sensors`
(alert.py lines 193-206) and `check_system` (lines 262-275). Returns the
values of `(alert, self.tstamp, self.flag)` after the block. -/
def changeStep (cfg : AlertCfg) (now g : Int) (st : AlertState) (change : Bool) :
    Bool × Int × Bool :=
  if change then
    if cfg.mode = 1 ∨ cfg.mode = 2 then
      (true, now, true)
    else if cfg.mode = 3 ∨ cfg.mode = 4 then
      if defer_expired cfg now g then (true, now, true) else (false, now, true)
    else
      (false, now, true)
  else
    (false, st.tstamp, st.flag)

/-- The `if (active): ... else: ...` part of `check_sensors`
(alert.py lines 208-232), applied to the `(alert, tstamp, flag)` values
left by the change block. Returns the updated `(alert, tstamp, flag)`. -/
def activeStepSensors (cfg : AlertCfg) (now g : Int) (active alert1 : Bool)
    (tstamp1 : Int) (flag1 : Bool) : Bool × Int × Bool :=
  if active then
    let p :=
      if cfg.mode = 2 ∧ tstamp1 ≠ 0 ∧ repeat_expired cfg now tstamp1 then
        ((true : Bool), now)
      else
        (alert1, tstamp1)
    if (cfg.mode = 3 ∨ cfg.mode = 4) ∧ flag1 then
      if defer_expired cfg now g then
        (true, now, if cfg.mode = 3 then false else flag1)
      else
        (p.1, p.2, flag1)
    else
      (p.1, p.2, flag1)
  else
    (alert1, 0, false)

/-- `Alert.check_sensors` (alert.py lines 157-237). Parameters: the items'
flag values (`hasHigh` is false when `attr2 == None`), the current time,
the class-level `Alert.alert_tstamp` `g`, and the instance state. Returns
`(alert, new Alert.alert_tstamp, new instance state)`. -/
def check_sensors (cfg : AlertCfg) (hasHigh : Bool) (items : List SItem)
    (now g : Int) (st : AlertState) : Bool × Int × AlertState :=
  let val_ul := mkMask (items.map SItem.low)
  let val_oh := if hasHigh then mkMask (items.map SItem.high) else 0
  let change :=
    decide (landNot val_ul st.val_ul ≠ 0) || decide (landNot val_oh st.val_oh ≠ 0)
  let active := decide (val_ul ≠ 0) || decide (val_oh ≠ 0)
  let c := changeStep cfg now g st change
  let r := activeStepSensors cfg now g active c.1 c.2.1 c.2.2
  let g2 := if r.1 then now else g
  (r.1, g2, { tstamp := r.2.1, flag := r.2.2, val_ul := val_ul, val_oh := val_oh,
              status := st.status })

/-- `Alert.check_system` (alert.py lines 239-306). The mode-2 repeat branch
executes `alert = true` where `true` is an undefined name (line 283), so
the call raises `NameError` there: modelled as `Except.error`, whose
payload is `(Alert.alert_tstamp, instance state)` at the raise point
(`self.status` already overwritten, change block already applied, the
repeat branch's own `self.tstamp = time()` not yet reached). -/
def check_system (cfg : AlertCfg) (b : Bool) (now g : Int) (st : AlertState) :
    Except (Int × AlertState) (Bool × Int × AlertState) :=
  let status := b
  let change := status && !st.status
  let active := status
  let c := changeStep cfg now g st change
  if active then
    if cfg.mode = 2 ∧ c.2.1 ≠ 0 ∧ repeat_expired cfg now c.2.1 then
      Except.error (g, { tstamp := c.2.1, flag := c.2.2, val_ul := st.val_ul,
                         val_oh := st.val_oh, status := status })
    else
      let r :=
        if (cfg.mode = 3 ∨ cfg.mode = 4) ∧ c.2.2 then
          if defer_expired cfg now g then
            ((true : Bool), now, if cfg.mode = 3 then false else c.2.2)
          else
            (c.1, c.2.1, c.2.2)
        else
          (c.1, c.2.1, c.2.2)
      let g2 := if r.1 then now else g
      Except.ok (r.1, g2, { tstamp := r.2.1, flag := r.2.2, val_ul := st.val_ul,
                            val_oh := st.val_oh, status := status })
  else
    let g2 := if c.1 then now else g
    Except.ok (c.1, g2, { tstamp := 0, flag := false, val_ul := st.val_ul,
                          val_oh := st.val_oh, status := status })

/-- The input of `Alert.check` (alert.py lines 146-155): either the sensor
dictionary's flags (`_check_type == 'sensors'`) or a single system flag. -/
inductive CheckInput where
  | sensorData (hasHigh : Bool) (items : List SItem)
  | systemFlag (b : Bool)

/-- `Alert.check` (alert.py lines 146-155): delegates to `check_sensors` or
`check_system`. `check_sensors` always returns; `check_system` may raise. -/
def check (cfg : AlertCfg) (inp : CheckInput) (now g : Int) (st : AlertState) :
    Except (Int × AlertState) (Bool × Int × AlertState) :=
  match inp with
  | CheckInput.sensorData hasHigh items =>
      Except.ok (check_sensors cfg hasHigh items now g st)
  | CheckInput.systemFlag b => check_system cfg b now g st

/-- Result of a `check` call: did it raise (`NameError`)? -/
def sysRaises : Except (Int × AlertState) (Bool × Int × AlertState) → Bool
  | Except.error _ => true
  | Except.ok _ => false

/-- The alert decision of a `check` call (`false` when the call raised,
since a raising call returns nothing). -/
def sysAlert : Except (Int × AlertState) (Bool × Int × AlertState) → Bool
  | Except.error _ => false
  | Except.ok (a, _, _) => a

/-- The value of `Alert.alert_tstamp` after a `check` call (on a raise, its
value at the raise point). -/
def sysGlobal : Except (Int × AlertState) (Bool × Int × AlertState) → Int
  | Except.error (g, _) => g
  | Except.ok (_, g, _) => g

/-- The instance state after a `check` call (on a raise, its value at the
raise point). -/
def sysState : Except (Int × AlertState) (Bool × Int × AlertState) → AlertState
  | Except.error (_, st) => st
  | Except.ok (_, _, st) => st

/-! ## StateStore: `save_state` / `load_state` of main.py -/

/-- The persisted fields of one `Pump`: `Pump.state` returns
`(self.busy, self.timestamp)` (pump.py lines 192-200). -/
structure PumpState where
  busy : Nat
  timestamp : Int
deriving DecidableEq

/-- One positional record of the persisted state list built by `save_state`
(main.py lines 180-190): the 6-tuple of `Alert.state` (alert.py lines
118-126, whose first component is the class-level `Alert.alert_tstamp`),
the single timestamp of `Sensor.state` (sensor.py lines 280-288), the pair
of `Pump.state`, and the scalar settings. -/
inductive Entry where
  | alertRec (g tstamp : Int) (flag : Bool) (val_ul val_oh : Nat) (status : Bool)
  | sensorRec (tstamp : Int)
  | pumpRec (busy : Nat) (timestamp : Int)
  | boolRec (b : Bool)
  | intRec (n : Int)
deriving DecidableEq

/-- The in-memory state that `save_state` reads and `load_state` overwrites:
the class-level `Alert.alert_tstamp` (`g`), each alert's instance state,
each sensor's timestamp, the two pumps, and the four scalar settings
`auto_irrigation`, `auto_report`, `irr_duration_man`, `deep_sleep`. -/
structure SysState where
  g : Int
  alerts : List AlertState
  sensors : List Int
  pump0 : PumpState
  pump1 : PumpState
  auto_irrigation : Bool
  auto_report : Bool
  irr_duration_man : Int
  deep_sleep : Bool
deriving DecidableEq

/-- `save_state` (main.py lines 171-195): appends, in order, each alert's
`state` 6-tuple, each sensor's `state` timestamp, both pumps' `state`
pairs, and the four settings scalars. The JSON encoding to RTC RAM is a
faithful positional transport and is elided. -/
def save_state (x : SysState) : List Entry :=
  x.alerts.map (fun a => Entry.alertRec x.g a.tstamp a.flag a.val_ul a.val_oh a.status)
    ++ x.sensors.map Entry.sensorRec
    ++ [Entry.pumpRec x.pump0.busy x.pump0.timestamp,
        Entry.pumpRec x.pump1.busy x.pump1.timestamp,
        Entry.boolRec x.auto_irrigation,
        Entry.boolRec x.auto_report,
        Entry.intRec x.irr_duration_man,
        Entry.boolRec x.deep_sleep]

/-- The alerts loop of `load_state` (main.py lines 210-211): `n` is the
number of live alert instances; each consumed record assigns the instance's
state via the `Alert.state` setter, which also overwrites the class-level
`Alert.alert_tstamp` with the record's first component (so the last record
wins). Returns the final `Alert.alert_tstamp`, the assigned instance
states, and the unconsumed remainder of the list. -/
def loadAlerts (g : Int) : Nat → List Entry → Option (Int × List AlertState × List Entry)
  | 0, blob => some (g, [], blob)
  | n + 1, Entry.alertRec g2 t f ul oh s :: rest =>
      match loadAlerts g2 n rest with
      | some (gf, as, rem) => some (gf, ⟨t, f, ul, oh, s⟩ :: as, rem)
      | none => none
  | _ + 1, _ => none

/-- The sensors loop of `load_state` (main.py lines 213-215): consumes one
timestamp per live sensor. -/
def loadSensors : Nat → List Entry → Option (List Int × List Entry)
  | 0, blob => some ([], blob)
  | n + 1, Entry.sensorRec t :: rest =>
      match loadSensors n rest with
      | some (ts, rem) => some (t :: ts, rem)
      | none => none
  | _ + 1, _ => none

/-- `load_state` (main.py lines 198-226): consumes the positional list in
the exact order `save_state` wrote it, using the live object counts of `x`
and overwriting `x`'s fields. If the alerts list is empty, line 212
(`i += 1`) reads the loop variable `i` that was never bound — a
`NameError` — modelled as `none`. A record of the wrong shape at any
position would raise on tuple unpacking, likewise `none`. Entries beyond
the consumed prefix are ignored, as the positional indexing ignores them. -/
def load_state (blob : List Entry) (x : SysState) : Option SysState :=
  if x.alerts.length = 0 then none
  else
    match loadAlerts x.g x.alerts.length blob with
    | none => none
    | some (gf, as, rem1) =>
      match loadSensors x.sensors.length rem1 with
      | none => none
      | some (ts, rem2) =>
        match rem2 with
        | Entry.pumpRec b0 t0 :: Entry.pumpRec b1 t1 :: Entry.boolRec ai ::
            Entry.boolRec ar :: Entry.intRec idm :: Entry.boolRec ds :: _ =>
            some { g := gf, alerts := as, sensors := ts,
                   pump0 := ⟨b0, t0⟩, pump1 := ⟨b1, t1⟩,
                   auto_irrigation := ai, auto_report := ar,
                   irr_duration_man := idm, deep_sleep := ds }
        | _ => none

/-! ## IrrigationScheduler: `Irrigation.auto_irrigation` of irrigation.py -/

/-- The fields of one `Sensor` read by `auto_irrigation` (irrigation.py
lines 122-137): the assigned pump number (1 or 2; 0 = unassigned), the
`valid` property, and the precomputed flags `light_il`, `moist_oh`,
`moist_ul`. -/
structure ISensor where
  pump : Nat
  valid : Bool
  light_il : Bool
  moist_oh : Bool
  moist_ul : Bool
deriving DecidableEq

/-- The configuration read by `auto_irrigation`. The night boundaries are
minutes since local midnight (`60 * night_begin_hr + night_begin_min`,
likewise for end); the source builds both `mktime` values on today's date
with the current seconds field, so its comparisons reduce exactly to
comparisons of these minute-of-day values. -/
structure IrrCfg where
  night_begin : Int
  night_end : Int
  irr_rest : Int
  irr_duration_auto1 : Int
  irr_duration_auto2 : Int
deriving DecidableEq

/-- The night-time gate of `auto_irrigation` (irrigation.py line 114):
`(now >= nighttime_start) or (now < nighttime_end)`, with `tod` the current
minute of the local day. -/
def nightGate (cfg : IrrCfg) (tod : Int) : Bool :=
  decide (tod ≥ cfg.night_begin) || decide (tod < cfg.night_end)

/-- The per-pump sensor loop of `auto_irrigation` (irrigation.py lines
122-137) deciding `activate[p]`: scans the sensors in iteration order,
skipping those not assigned to pump `p+1`; the first assigned sensor that
is invalid, or over the light irrigation limit, or over moisture range
breaks with `activate[p]` still false; the first assigned sensor with
moisture under range breaks with `activate[p] = true`. -/
def activateFor (p : Nat) : List ISensor → Bool
  | [] => false
  | s :: rest =>
    if s.pump ≠ p + 1 then activateFor p rest
    else if s.valid = false then false
    else if s.light_il then false
    else if s.moist_oh then false
    else if s.moist_ul then true
    else activateFor p rest

/-- The per-pump decision loop of `auto_irrigation` (irrigation.py lines
141-157). Returns `(schedule[p], ran, pump')`: `ran = some d` when the
pump was fired for duration `d` (the source sets `busy` to
`PUMP_BUSY_AUTO = 2`, calls `power_on(duration)`, resets `busy` to 0 and
sets `timestamp = time.time()`; the busy marking is transient inside the
call, so the post-state is `⟨0, now⟩`). -/
def decidePump (cfg : IrrCfg) (now : Int) (act : Bool) (dur : Int)
    (pm : PumpState) : Bool × Option Int × PumpState :=
  if act then
    if now - pm.timestamp < cfg.irr_rest then (true, none, pm)
    else if pm.busy = 0 then (false, some dur, { busy := 0, timestamp := now })
    else (false, none, pm)
  else
    (false, none, pm)

/-- The observable outcome of one `auto_irrigation` call: the returned
`schedule` list, the fire events, and the two pumps' post-states. -/
structure IrrResult where
  sched0 : Bool
  sched1 : Bool
  ran0 : Option Int
  ran1 : Option Int
  pump0 : PumpState
  pump1 : PumpState
deriving DecidableEq

/-- `Irrigation.auto_irrigation` (irrigation.py lines 74-159): the night
gate, then `activate[p]` per pump from the sensors, then the
schedule-or-fire decision per pump. -/
def auto_irrigation (cfg : IrrCfg) (tod now : Int) (sensors : List ISensor)
    (p0 p1 : PumpState) : IrrResult :=
  if nightGate cfg tod then
    { sched0 := false, sched1 := false, ran0 := none, ran1 := none,
      pump0 := p0, pump1 := p1 }
  else
    let r0 := decidePump cfg now (activateFor 0 sensors) cfg.irr_duration_auto1 p0
    let r1 := decidePump cfg now (activateFor 1 sensors) cfg.irr_duration_auto2 p1
    { sched0 := r0.1, sched1 := r1.1, ran0 := r0.2.1, ran1 := r1.2.1,
      pump0 := r0.2.2, pump1 := r1.2.2 }

/-- The claim-side reading of "the current local time of day falls inside
the night window [night_begin, night_end)": when the window does not wrap
midnight it is the half-open interval, when it wraps it is the union of
the evening and morning parts. -/
def inNightWindow (cfg : IrrCfg) (tod : Int) : Prop :=
  (cfg.night_begin ≤ cfg.night_end ∧ cfg.night_begin ≤ tod ∧ tod < cfg.night_end)
    ∨ (cfg.night_end < cfg.night_begin ∧ (cfg.night_begin ≤ tod ∨ tod < cfg.night_end))

instance (cfg : IrrCfg) (tod : Int) : Decidable (inNightWindow cfg tod) := by
  unfold inNightWindow
  infer_instance

/-! ## Claim theorems -/

/-- C1. The claim says a mode-4 alert deferred at the rising edge fires when
`now - global_last_alert_tstamp` exceeds `defer_time` and thereafter
"repeats subject to repeat_time". The code instead re-fires whenever the
defer window against the shared global timestamp expires again, ignoring
`repeat_time` — contradicting the module header (alert.py lines 17-18:
mode 4 "alert is repeated after <repeat_time>"). Trace with mode 4,
`defer_time = 10`, `repeat_time = 100`, one item, global timestamp 95:
edge at t=100 is suppressed; t=110 fires (deferred); t=121 fires again,
only 11 s after the last trigger, although `repeat_time = 100` has not
elapsed. -/
theorem C1_mode4_refires_on_defer_not_repeat_time :
    check_sensors ⟨4, 10, 100⟩ false [⟨true, false⟩] 100 95 ⟨0, false, 0, 0, false⟩
      = (false, 95, ⟨100, true, 1, 0, false⟩)
  ∧ check_sensors ⟨4, 10, 100⟩ false [⟨true, false⟩] 110 95 ⟨100, true, 1, 0, false⟩
      = (true, 110, ⟨110, true, 1, 0, false⟩)
  ∧ check_sensors ⟨4, 10, 100⟩ false [⟨true, false⟩] 121 110 ⟨110, true, 1, 0, false⟩
      = (true, 121, ⟨121, true, 1, 0, false⟩)
  ∧ ((121 : Int) - 110 ≤ 100) := by
  refine ⟨by decide, by decide, by decide, by decide⟩

/-- C3. Mode 2 with `repeat_time = 50` on the system check: the rising edge
at t=7 alerts, and at t=60 the condition is still active with
`now - last_trigger_tstamp = 53 > 50`, so the claim says `check()` returns
true. The code instead executes `alert = true` (alert.py line 283), where
`true` is an undefined name, and raises `NameError` — contradicting the
comment above it ("-> send alert and restart timer"). -/
theorem C3_mode2_system_repeat_raises :
    sysAlert (check_system ⟨2, 0, 50⟩ true 7 0 ⟨0, false, 0, 0, false⟩) = true
  ∧ sysGlobal (check_system ⟨2, 0, 50⟩ true 7 0 ⟨0, false, 0, 0, false⟩) = 7
  ∧ sysState (check_system ⟨2, 0, 50⟩ true 7 0 ⟨0, false, 0, 0, false⟩)
      = ⟨7, true, 0, 0, true⟩
  ∧ sysRaises (check_system ⟨2, 0, 50⟩ true 60 7 ⟨7, true, 0, 0, true⟩) = true := by
  refine ⟨by decide, by decide, by decide, by decide⟩

/-- C4. The claim says `check()` always returns a boolean and never raises.
On the system check with mode 2, once the condition stays active past the
repeat time, the undefined name `true` at alert.py line 283 raises
`NameError`: with `repeat_time = 10`, an edge at t=3 alerts normally, and
the call at t=20 (17 s later, still active) raises instead of returning. -/
theorem C4_check_raises_on_mode2_system_repeat :
    sysAlert (check ⟨2, 0, 10⟩ (CheckInput.systemFlag true) 3 0 alertInit) = true
  ∧ sysRaises (check ⟨2, 0, 10⟩ (CheckInput.systemFlag true) 20 3 ⟨3, true, 0, 0, true⟩)
      = true := by
  refine ⟨by decide, by decide⟩

/-- C6. The claim says any invalid sensor assigned to pump `p` suppresses
irrigation for `p` regardless of iteration order. The sensor loop
(irrigation.py lines 122-137) breaks at the first assigned sensor that
sets any flag, so a moisture-under-range sensor earlier in iteration
order hides a later invalid sensor — contradicting the function's own
docstring ("Irrigation is run (per pump) if ... all sensor data is
up-to-date"). Concrete run, outside the night window, rest time expired:
sensor 1 (pump 1, valid, moisture under range) precedes sensor 2 (pump 1,
invalid); pump 1 fires anyway. -/
theorem C6_invalid_sensor_after_low_moisture_ignored :
    auto_irrigation ⟨1320, 420, 100, 60, 45⟩ 720 500
        [⟨1, true, false, false, true⟩, ⟨1, false, false, false, false⟩]
        ⟨0, 0⟩ ⟨0, 0⟩
      = { sched0 := false, sched1 := false, ran0 := some 60, ran1 := none,
          pump0 := ⟨0, 500⟩, pump1 := ⟨0, 0⟩ } := by
  decide

/-- C9. The shared class-level `Alert.alert_tstamp` after a check equals
`now` when the call reports an alert and is unchanged otherwise; the
raising path of `check_system` leaves it unchanged as well (the update at
alert.py lines 234-235 / 303-304 runs only after a completed check that
set `alert`). -/
theorem C9_global_tstamp_updated_iff_alert (cfg : AlertCfg) (hasHigh : Bool)
    (items : List SItem) (b : Bool) (now g : Int) (st : AlertState) :
    (check_sensors cfg hasHigh items now g st).2.1
      = (if (check_sensors cfg hasHigh items now g st).1 = true then now else g)
  ∧ sysGlobal (check_system cfg b now g st)
      = (if sysAlert (check_system cfg b now g st) = true then now else g) := by
  constructor
  · rfl
  · cases b with
    | false => rfl
    | true =>
        unfold check_system
        dsimp only
        by_cases hc : cfg.mode = 2 ∧ (changeStep cfg now g st (true && !st.status)).2.1 ≠ 0 ∧
            repeat_expired cfg now (changeStep cfg now g st (true && !st.status)).2.1 = true
        · rw [if_pos hc]
          rfl
        · rw [if_neg hc]
          rfl

/-- Helper: the change block keeps the invariant "flag implies nonzero
trigger timestamp", since it stamps `tstamp = now` whenever it sets the
flag. -/
theorem changeStep_inv (cfg : AlertCfg) (now g : Int) (st : AlertState) (change : Bool)
    (hnow : now ≠ 0) (hinv : st.flag = true → st.tstamp ≠ 0) :
    (changeStep cfg now g st change).2.2 = true → (changeStep cfg now g st change).2.1 ≠ 0 := by
  unfold changeStep
  split
  · split
    · intro _; exact hnow
    · split
      · split
        · intro _; exact hnow
        · intro _; exact hnow
      · intro _; exact hnow
  · exact hinv

/-- Helper: the active/inactive part of `check_sensors` keeps the
invariant "flag implies nonzero trigger timestamp". -/
theorem activeStepSensors_inv (cfg : AlertCfg) (now g : Int) (active alert1 : Bool)
    (tstamp1 : Int) (flag1 : Bool) (hnow : now ≠ 0) (h1 : flag1 = true → tstamp1 ≠ 0) :
    (activeStepSensors cfg now g active alert1 tstamp1 flag1).2.2 = true →
      (activeStepSensors cfg now g active alert1 tstamp1 flag1).2.1 ≠ 0 := by
  unfold activeStepSensors
  dsimp only
  split
  · split
    · split
      · intro _; exact hnow
      · intro hf
        split
        · exact hnow
        · exact h1 hf
    · intro hf
      split
      · exact hnow
      · exact h1 hf
  · intro hf
    exact absurd hf (by simp)

/-- C8. Invariant of the alert engine, preserved by `check_sensors` and by
`check_system` (also at the `NameError` raise point): whenever
`deferred_flag` (`self.flag`) is true, `last_trigger_tstamp`
(`self.tstamp`) is nonzero. The initial state (`tstamp = 0`,
`flag = false`, alert.py lines 110-111) satisfies it; `now` is a positive
wall-clock reading. -/
theorem C8_flag_implies_nonzero_tstamp (cfg : AlertCfg) (hasHigh : Bool)
    (items : List SItem) (b : Bool) (now g : Int) (st : AlertState)
    (hnow : 0 < now) (hinv : st.flag = true → st.tstamp ≠ 0) :
    (alertInit.flag = true → alertInit.tstamp ≠ 0)
  ∧ ((check_sensors cfg hasHigh items now g st).2.2.flag = true →
      (check_sensors cfg hasHigh items now g st).2.2.tstamp ≠ 0)
  ∧ ((sysState (check_system cfg b now g st)).flag = true →
      (sysState (check_system cfg b now g st)).tstamp ≠ 0) := by
  have hne : now ≠ 0 := hnow.ne'
  refine ⟨by intro hf; exact absurd hf (by simp [alertInit]), ?_, ?_⟩
  · unfold check_sensors
    dsimp only
    exact activeStepSensors_inv _ _ _ _ _ _ _ hne (changeStep_inv _ _ _ _ _ hne hinv)
  · cases b with
    | false =>
        intro hf
        exact absurd hf Bool.false_ne_true
    | true =>
        unfold check_system
        dsimp only
        by_cases hc : cfg.mode = 2 ∧ (changeStep cfg now g st (true && !st.status)).2.1 ≠ 0 ∧
            repeat_expired cfg now (changeStep cfg now g st (true && !st.status)).2.1 = true
        · rw [if_pos hc]
          exact changeStep_inv _ _ _ _ _ hne hinv
        · rw [if_neg hc]
          show (if (cfg.mode = 3 ∨ cfg.mode = 4) ∧
                    (changeStep cfg now g st (true && !st.status)).2.2 = true then
                  if defer_expired cfg now g = true then
                    ((true : Bool), now,
                      if cfg.mode = 3 then false
                      else (changeStep cfg now g st (true && !st.status)).2.2)
                  else changeStep cfg now g st (true && !st.status)
                else changeStep cfg now g st (true && !st.status)).2.2 = true →
              (if (cfg.mode = 3 ∨ cfg.mode = 4) ∧
                    (changeStep cfg now g st (true && !st.status)).2.2 = true then
                  if defer_expired cfg now g = true then
                    ((true : Bool), now,
                      if cfg.mode = 3 then false
                      else (changeStep cfg now g st (true && !st.status)).2.2)
                  else changeStep cfg now g st (true && !st.status)
                else changeStep cfg now g st (true && !st.status)).2.1 ≠ 0
          split
          · split
            · intro _; exact hne
            · exact changeStep_inv _ _ _ _ _ hne hinv
          · exact changeStep_inv _ _ _ _ _ hne hinv

/-- Witness for C8 at a concrete input: mode 3, `now = 5`, starting from
the initial state. -/
theorem C8_flag_implies_nonzero_tstamp_witness :
    (0 : Int) < 5
  ∧ ((alertInit.flag = true → alertInit.tstamp ≠ 0)
      ∧ ((check_sensors ⟨3, 10, 20⟩ true [⟨true, false⟩] 5 0 alertInit).2.2.flag = true →
          (check_sensors ⟨3, 10, 20⟩ true [⟨true, false⟩] 5 0 alertInit).2.2.tstamp ≠ 0)
      ∧ ((sysState (check_system ⟨3, 10, 20⟩ true 5 0 alertInit)).flag = true →
          (sysState (check_system ⟨3, 10, 20⟩ true 5 0 alertInit)).tstamp ≠ 0)) :=
  ⟨by decide,
   C8_flag_implies_nonzero_tstamp ⟨3, 10, 20⟩ true [⟨true, false⟩] true 5 0 alertInit
     (by decide) (by decide)⟩

/-- C5. Whenever the current local time of day lies inside the night
window `[night_begin, night_end)` — evening-and-morning union when the
window wraps midnight — `auto_irrigation` returns no scheduled pump,
fires nothing, and leaves both pumps untouched: the gate at
irrigation.py line 114 returns `[False, False]` before any pump is
examined. -/
theorem C5_night_window_suppresses (cfg : IrrCfg) (tod now : Int)
    (sensors : List ISensor) (p0 p1 : PumpState) (h : inNightWindow cfg tod) :
    auto_irrigation cfg tod now sensors p0 p1
      = { sched0 := false, sched1 := false, ran0 := none, ran1 := none,
          pump0 := p0, pump1 := p1 } := by
  have hg : nightGate cfg tod = true := by
    simp only [nightGate, Bool.or_eq_true, decide_eq_true_eq]
    rcases h with ⟨h1, h2, h3⟩ | ⟨h1, h2⟩
    · exact Or.inr h3
    · exact h2
  unfold auto_irrigation
  rw [hg]
  rfl

/-- Witness for C5: 23:00 inside the window 22:00-07:00. -/
theorem C5_night_window_suppresses_witness :
    inNightWindow ⟨1320, 420, 100, 60, 45⟩ 1380
  ∧ auto_irrigation ⟨1320, 420, 100, 60, 45⟩ 1380 77
        [⟨1, true, false, false, true⟩] ⟨1, 5⟩ ⟨2, 6⟩
      = { sched0 := false, sched1 := false, ran0 := none, ran1 := none,
          pump0 := ⟨1, 5⟩, pump1 := ⟨2, 6⟩ } :=
  ⟨by decide,
   C5_night_window_suppresses ⟨1320, 420, 100, 60, 45⟩ 1380 77
     [⟨1, true, false, false, true⟩] ⟨1, 5⟩ ⟨2, 6⟩ (by decide)⟩

/-- Helper: outside the night window, `auto_irrigation` is the two
independent per-pump decisions. -/
theorem auto_irrigation_day (cfg : IrrCfg) (tod now : Int) (sensors : List ISensor)
    (p0 p1 : PumpState) (hnight : nightGate cfg tod = false) :
    auto_irrigation cfg tod now sensors p0 p1 =
      { sched0 := (decidePump cfg now (activateFor 0 sensors) cfg.irr_duration_auto1 p0).1,
        sched1 := (decidePump cfg now (activateFor 1 sensors) cfg.irr_duration_auto2 p1).1,
        ran0 := (decidePump cfg now (activateFor 0 sensors) cfg.irr_duration_auto1 p0).2.1,
        ran1 := (decidePump cfg now (activateFor 1 sensors) cfg.irr_duration_auto2 p1).2.1,
        pump0 := (decidePump cfg now (activateFor 0 sensors) cfg.irr_duration_auto1 p0).2.2,
        pump1 := (decidePump cfg now (activateFor 1 sensors) cfg.irr_duration_auto2 p1).2.2 } := by
  unfold auto_irrigation
  rw [hnight]
  rfl

/-- Helper: a pump that wants water but is still inside its rest time is
only scheduled. -/
theorem decidePump_schedule (cfg : IrrCfg) (now dur : Int) (pm : PumpState)
    (h : now - pm.timestamp < cfg.irr_rest) :
    decidePump cfg now true dur pm = (true, none, pm) := by
  unfold decidePump
  rw [if_pos h]
  rfl

/-- Helper: a pump that wants water, with rest time expired and not busy,
fires for the given duration and ends idle with `timestamp = now`. -/
theorem decidePump_fire (cfg : IrrCfg) (now dur : Int) (pm : PumpState)
    (h1 : ¬ now - pm.timestamp < cfg.irr_rest) (h2 : pm.busy = 0) :
    decidePump cfg now true dur pm = (false, some dur, ⟨0, now⟩) := by
  unfold decidePump
  rw [if_neg h1, if_pos h2]
  rfl

/-- C7 counterexample. The claim, as stated, fails for a night window
that does not wrap midnight: with `night_begin = 01:00`,
`night_end = 05:00`, the gate `(now >= nighttime_start) or
(now < nighttime_end)` (irrigation.py line 114) is true at every time of
day, so at noon — outside the window `[01:00, 05:00)` — a pump that wants
water (one valid under-range sensor), with its rest time expired
(`500 - 0 ≥ 100`) and `busy = 0`, is neither fired nor scheduled, while
the claim says it must fire. -/
theorem C7_nonwrap_window_never_fires :
    ¬ inNightWindow ⟨60, 300, 100, 60, 45⟩ 720
  ∧ activateFor 0 [⟨1, true, false, false, true⟩] = true
  ∧ ¬ (500 : Int) - (⟨0, 0⟩ : PumpState).timestamp
        < (⟨60, 300, 100, 60, 45⟩ : IrrCfg).irr_rest
  ∧ (⟨0, 0⟩ : PumpState).busy = 0
  ∧ (auto_irrigation ⟨60, 300, 100, 60, 45⟩ 720 500
        [⟨1, true, false, false, true⟩] ⟨0, 0⟩ ⟨0, 0⟩).ran0 = none
  ∧ (auto_irrigation ⟨60, 300, 100, 60, 45⟩ 720 500
        [⟨1, true, false, false, true⟩] ⟨0, 0⟩ ⟨0, 0⟩).sched0 = false
  ∧ (auto_irrigation ⟨60, 300, 100, 60, 45⟩ 720 500
        [⟨1, true, false, false, true⟩] ⟨0, 0⟩ ⟨0, 0⟩).pump0 = ⟨0, 0⟩ := by
  refine ⟨by decide, by decide, by decide, by decide, by decide, by decide, by decide⟩

/-- C7 as amended. For a configured night window that wraps midnight
(`night_end < night_begin`, as in the default 22:00-07:00 — for a
non-wrapping window the gate at irrigation.py line 114 suppresses
irrigation at every time of day), outside the night window, for a pump
that wants water (`activate[p]` true): if `now - p.timestamp < irr_rest`
the pump is reported scheduled and not fired, with its state untouched;
otherwise, if `p.busy = 0`, it fires for its configured automatic
duration and ends with `busy = 0` and `timestamp = now` (the
`PUMP_BUSY_AUTO = 2` marking set before `power_on` is reset before the
call returns, irrigation.py lines 154-157). -/
theorem C7_wrap_window_rest_schedules_otherwise_fires (cfg : IrrCfg) (tod now : Int)
    (sensors : List ISensor) (p0 p1 : PumpState)
    (hwrap : cfg.night_end < cfg.night_begin)
    (hout : ¬ inNightWindow cfg tod) :
    (activateFor 0 sensors = true →
      ((now - p0.timestamp < cfg.irr_rest →
          (auto_irrigation cfg tod now sensors p0 p1).sched0 = true ∧
          (auto_irrigation cfg tod now sensors p0 p1).ran0 = none ∧
          (auto_irrigation cfg tod now sensors p0 p1).pump0 = p0) ∧
       (¬ now - p0.timestamp < cfg.irr_rest → p0.busy = 0 →
          (auto_irrigation cfg tod now sensors p0 p1).sched0 = false ∧
          (auto_irrigation cfg tod now sensors p0 p1).ran0 = some cfg.irr_duration_auto1 ∧
          (auto_irrigation cfg tod now sensors p0 p1).pump0 = ⟨0, now⟩)))
  ∧ (activateFor 1 sensors = true →
      ((now - p1.timestamp < cfg.irr_rest →
          (auto_irrigation cfg tod now sensors p0 p1).sched1 = true ∧
          (auto_irrigation cfg tod now sensors p0 p1).ran1 = none ∧
          (auto_irrigation cfg tod now sensors p0 p1).pump1 = p1) ∧
       (¬ now - p1.timestamp < cfg.irr_rest → p1.busy = 0 →
          (auto_irrigation cfg tod now sensors p0 p1).sched1 = false ∧
          (auto_irrigation cfg tod now sensors p0 p1).ran1 = some cfg.irr_duration_auto2 ∧
          (auto_irrigation cfg tod now sensors p0 p1).pump1 = ⟨0, now⟩))) := by
  have h1 : ¬ (cfg.night_begin ≤ tod ∨ tod < cfg.night_end) := fun hcon =>
    hout (Or.inr ⟨hwrap, hcon⟩)
  have hnight : nightGate cfg tod = false := by
    have h2 : ¬ nightGate cfg tod = true := by
      simp only [nightGate, Bool.or_eq_true, decide_eq_true_eq]
      exact h1
    simpa using h2
  rw [auto_irrigation_day cfg tod now sensors p0 p1 hnight]
  constructor
  · intro hact
    rw [hact]
    constructor
    · intro h1
      rw [decidePump_schedule cfg now cfg.irr_duration_auto1 p0 h1]
      exact ⟨rfl, rfl, rfl⟩
    · intro h1 h2
      rw [decidePump_fire cfg now cfg.irr_duration_auto1 p0 h1 h2]
      exact ⟨rfl, rfl, rfl⟩
  · intro hact
    rw [hact]
    constructor
    · intro h1
      rw [decidePump_schedule cfg now cfg.irr_duration_auto2 p1 h1]
      exact ⟨rfl, rfl, rfl⟩
    · intro h1 h2
      rw [decidePump_fire cfg now cfg.irr_duration_auto2 p1 h1 h2]
      exact ⟨rfl, rfl, rfl⟩

/-- Witness for C7 as amended: wrapping window 22:00-07:00, noon outside
it, one under-range sensor per pump; pump 1 inside its rest time
(schedule branch), pump 2 rested and idle (fire branch). -/
theorem C7_wrap_window_rest_schedules_otherwise_fires_witness :
    (⟨1320, 420, 100, 60, 45⟩ : IrrCfg).night_end
      < (⟨1320, 420, 100, 60, 45⟩ : IrrCfg).night_begin
  ∧ ¬ inNightWindow ⟨1320, 420, 100, 60, 45⟩ 720
  ∧ ((activateFor 0 [⟨1, true, false, false, true⟩, ⟨2, true, false, false, true⟩] = true →
      ((500 - (⟨0, 450⟩ : PumpState).timestamp < (⟨1320, 420, 100, 60, 45⟩ : IrrCfg).irr_rest →
          (auto_irrigation ⟨1320, 420, 100, 60, 45⟩ 720 500
            [⟨1, true, false, false, true⟩, ⟨2, true, false, false, true⟩] ⟨0, 450⟩ ⟨0, 0⟩).sched0 = true ∧
          (auto_irrigation ⟨1320, 420, 100, 60, 45⟩ 720 500
            [⟨1, true, false, false, true⟩, ⟨2, true, false, false, true⟩] ⟨0, 450⟩ ⟨0, 0⟩).ran0 = none ∧
          (auto_irrigation ⟨1320, 420, 100, 60, 45⟩ 720 500
            [⟨1, true, false, false, true⟩, ⟨2, true, false, false, true⟩] ⟨0, 450⟩ ⟨0, 0⟩).pump0 = ⟨0, 450⟩) ∧
       (¬ 500 - (⟨0, 450⟩ : PumpState).timestamp < (⟨1320, 420, 100, 60, 45⟩ : IrrCfg).irr_rest →
          (⟨0, 450⟩ : PumpState).busy = 0 →
          (auto_irrigation ⟨1320, 420, 100, 60, 45⟩ 720 500
            [⟨1, true, false, false, true⟩, ⟨2, true, false, false, true⟩] ⟨0, 450⟩ ⟨0, 0⟩).sched0 = false ∧
          (auto_irrigation ⟨1320, 420, 100, 60, 45⟩ 720 500
            [⟨1, true, false, false, true⟩, ⟨2, true, false, false, true⟩] ⟨0, 450⟩ ⟨0, 0⟩).ran0 = some 60 ∧
          (auto_irrigation ⟨1320, 420, 100, 60, 45⟩ 720 500
            [⟨1, true, false, false, true⟩, ⟨2, true, false, false, true⟩] ⟨0, 450⟩ ⟨0, 0⟩).pump0 = ⟨0, 500⟩)))
  ∧ (activateFor 1 [⟨1, true, false, false, true⟩, ⟨2, true, false, false, true⟩] = true →
      ((500 - (⟨0, 0⟩ : PumpState).timestamp < (⟨1320, 420, 100, 60, 45⟩ : IrrCfg).irr_rest →
          (auto_irrigation ⟨1320, 420, 100, 60, 45⟩ 720 500
            [⟨1, true, false, false, true⟩, ⟨2, true, false, false, true⟩] ⟨0, 450⟩ ⟨0, 0⟩).sched1 = true ∧
          (auto_irrigation ⟨1320, 420, 100, 60, 45⟩ 720 500
            [⟨1, true, false, false, true⟩, ⟨2, true, false, false, true⟩] ⟨0, 450⟩ ⟨0, 0⟩).ran1 = none ∧
          (auto_irrigation ⟨1320, 420, 100, 60, 45⟩ 720 500
            [⟨1, true, false, false, true⟩, ⟨2, true, false, false, true⟩] ⟨0, 450⟩ ⟨0, 0⟩).pump1 = ⟨0, 0⟩) ∧
       (¬ 500 - (⟨0, 0⟩ : PumpState).timestamp < (⟨1320, 420, 100, 60, 45⟩ : IrrCfg).irr_rest →
          (⟨0, 0⟩ : PumpState).busy = 0 →
          (auto_irrigation ⟨1320, 420, 100, 60, 45⟩ 720 500
            [⟨1, true, false, false, true⟩, ⟨2, true, false, false, true⟩] ⟨0, 450⟩ ⟨0, 0⟩).sched1 = false ∧
          (auto_irrigation ⟨1320, 420, 100, 60, 45⟩ 720 500
            [⟨1, true, false, false, true⟩, ⟨2, true, false, false, true⟩] ⟨0, 450⟩ ⟨0, 0⟩).ran1 = some 45 ∧
          (auto_irrigation ⟨1320, 420, 100, 60, 45⟩ 720 500
            [⟨1, true, false, false, true⟩, ⟨2, true, false, false, true⟩] ⟨0, 450⟩ ⟨0, 0⟩).pump1 = ⟨0, 500⟩)))) :=
  ⟨by decide, by decide,
   C7_wrap_window_rest_schedules_otherwise_fires ⟨1320, 420, 100, 60, 45⟩ 720 500
     [⟨1, true, false, false, true⟩, ⟨2, true, false, false, true⟩] ⟨0, 450⟩ ⟨0, 0⟩
     (by decide) (by decide)⟩

/-- Helper: frame property of one pump's decision: no fire leaves the pump
untouched; a fire requires the pump to have been idle and leaves it idle
with `timestamp = now`. -/
theorem decidePump_frame (cfg : IrrCfg) (now : Int) (act : Bool) (dur : Int)
    (pm : PumpState) :
    ((decidePump cfg now act dur pm).2.1 = none → (decidePump cfg now act dur pm).2.2 = pm)
  ∧ ((decidePump cfg now act dur pm).2.1 ≠ none →
      pm.busy = 0 ∧ (decidePump cfg now act dur pm).2.2 = ⟨0, now⟩) := by
  unfold decidePump
  split
  · split
    · exact ⟨fun _ => rfl, fun h => absurd rfl h⟩
    · split
      · refine ⟨fun h => absurd h (by simp), fun _ => ⟨by assumption, rfl⟩⟩
      · exact ⟨fun _ => rfl, fun h => absurd rfl h⟩
  · exact ⟨fun _ => rfl, fun h => absurd rfl h⟩

/-- C10. `auto_irrigation` leaves each pump's `busy` and `timestamp`
unchanged in every case except a completed automatic fire (suppressed,
merely scheduled, or skipped because `busy ≠ 0`); a fire happens only
from `busy = 0` and ends with `busy = 0` and `timestamp = now`, so the
transient auto-busy marking never persists past the call. -/
theorem C10_pump_state_frame (cfg : IrrCfg) (tod now : Int) (sensors : List ISensor)
    (p0 p1 : PumpState) :
    ((auto_irrigation cfg tod now sensors p0 p1).ran0 = none →
        (auto_irrigation cfg tod now sensors p0 p1).pump0 = p0)
  ∧ ((auto_irrigation cfg tod now sensors p0 p1).ran0 ≠ none →
        p0.busy = 0 ∧ (auto_irrigation cfg tod now sensors p0 p1).pump0 = ⟨0, now⟩)
  ∧ ((auto_irrigation cfg tod now sensors p0 p1).ran1 = none →
        (auto_irrigation cfg tod now sensors p0 p1).pump1 = p1)
  ∧ ((auto_irrigation cfg tod now sensors p0 p1).ran1 ≠ none →
        p1.busy = 0 ∧ (auto_irrigation cfg tod now sensors p0 p1).pump1 = ⟨0, now⟩) := by
  by_cases hn : nightGate cfg tod = true
  · unfold auto_irrigation
    rw [hn]
    exact ⟨fun _ => rfl, fun h => absurd rfl h, fun _ => rfl, fun h => absurd rfl h⟩
  · have hn2 : nightGate cfg tod = false := by simpa using hn
    rw [auto_irrigation_day cfg tod now sensors p0 p1 hn2]
    exact ⟨(decidePump_frame cfg now _ _ p0).1, (decidePump_frame cfg now _ _ p0).2,
           (decidePump_frame cfg now _ _ p1).1, (decidePump_frame cfg now _ _ p1).2⟩

/-- Witness for C10 at a concrete daytime input where pump 1 fires and
pump 2 is idle. -/
theorem C10_pump_state_frame_witness :
    ((auto_irrigation ⟨1320, 420, 100, 60, 45⟩ 720 500 [⟨1, true, false, false, true⟩]
        ⟨0, 0⟩ ⟨0, 7⟩).ran0 = none →
      (auto_irrigation ⟨1320, 420, 100, 60, 45⟩ 720 500 [⟨1, true, false, false, true⟩]
        ⟨0, 0⟩ ⟨0, 7⟩).pump0 = ⟨0, 0⟩)
  ∧ ((auto_irrigation ⟨1320, 420, 100, 60, 45⟩ 720 500 [⟨1, true, false, false, true⟩]
        ⟨0, 0⟩ ⟨0, 7⟩).ran0 ≠ none →
      (⟨0, 0⟩ : PumpState).busy = 0 ∧
      (auto_irrigation ⟨1320, 420, 100, 60, 45⟩ 720 500 [⟨1, true, false, false, true⟩]
        ⟨0, 0⟩ ⟨0, 7⟩).pump0 = ⟨0, 500⟩)
  ∧ ((auto_irrigation ⟨1320, 420, 100, 60, 45⟩ 720 500 [⟨1, true, false, false, true⟩]
        ⟨0, 0⟩ ⟨0, 7⟩).ran1 = none →
      (auto_irrigation ⟨1320, 420, 100, 60, 45⟩ 720 500 [⟨1, true, false, false, true⟩]
        ⟨0, 0⟩ ⟨0, 7⟩).pump1 = ⟨0, 7⟩)
  ∧ ((auto_irrigation ⟨1320, 420, 100, 60, 45⟩ 720 500 [⟨1, true, false, false, true⟩]
        ⟨0, 0⟩ ⟨0, 7⟩).ran1 ≠ none →
      (⟨0, 7⟩ : PumpState).busy = 0 ∧
      (auto_irrigation ⟨1320, 420, 100, 60, 45⟩ 720 500 [⟨1, true, false, false, true⟩]
        ⟨0, 0⟩ ⟨0, 7⟩).pump1 = ⟨0, 500⟩) :=
  C10_pump_state_frame ⟨1320, 420, 100, 60, 45⟩ 720 500 [⟨1, true, false, false, true⟩]
    ⟨0, 0⟩ ⟨0, 7⟩

/-- Helper: the alerts phase of `load_state` consumes exactly the records
the alerts phase of `save_state` wrote, restoring every alert's state; the
class-level timestamp ends at the written value `gg` (each record carries
it, the last assignment wins), or stays `g0` when there are no alerts. -/
theorem loadAlerts_save (gg : Int) (as : List AlertState) (g0 : Int) (tail : List Entry) :
    loadAlerts g0 as.length
        (as.map (fun a => Entry.alertRec gg a.tstamp a.flag a.val_ul a.val_oh a.status) ++ tail)
      = some (if as = [] then g0 else gg, as, tail) := by
  induction as generalizing g0 with
  | nil => simp [loadAlerts]
  | cons a rest ih =>
      simp only [List.map_cons, List.cons_append, List.length_cons, loadAlerts, List.append_eq]
      rw [ih, ite_self]
      rfl

/-- Helper: the sensors phase of `load_state` restores exactly the sensor
timestamps the sensors phase of `save_state` wrote. -/
theorem loadSensors_save (ts : List Int) (tail : List Entry) :
    loadSensors ts.length (ts.map Entry.sensorRec ++ tail) = some (ts, tail) := by
  induction ts with
  | nil => simp [loadSensors]
  | cons t rest ih =>
      simp only [List.map_cons, List.cons_append, List.length_cons, loadSensors, List.append_eq]
      rw [ih]

/-- C2. Round-trip law of the state store: `load_state` after `save_state`
on the same alerts, sensors and pumps restores every persisted field —
each alert's tuple, each sensor timestamp, both pumps' `(busy, timestamp)`
pairs, the scalar settings, and the shared `Alert.alert_tstamp`. The
program always has a nonempty alerts list (`load_state` reads the loop
variable `i` after the alerts loop, main.py line 212, so an empty list
would raise `NameError`). -/
theorem C2_state_roundtrip (x : SysState) (h : x.alerts ≠ []) :
    load_state (save_state x) x = some x := by
  unfold load_state save_state
  have h0 : ¬ x.alerts.length = 0 := by
    simpa [List.length_eq_zero] using h
  rw [if_neg h0, List.append_assoc, loadAlerts_save, ite_self]
  dsimp only
  rw [loadSensors_save]

/-- Witness for C2 at a concrete state with one alert and one sensor. -/
theorem C2_state_roundtrip_witness :
    (⟨42, [⟨5, true, 3, 1, false⟩], [9], ⟨0, 11⟩, ⟨1, 22⟩, true, false, 33, true⟩ :
        SysState).alerts ≠ []
  ∧ load_state
      (save_state ⟨42, [⟨5, true, 3, 1, false⟩], [9], ⟨0, 11⟩, ⟨1, 22⟩, true, false, 33, true⟩)
      ⟨42, [⟨5, true, 3, 1, false⟩], [9], ⟨0, 11⟩, ⟨1, 22⟩, true, false, 33, true⟩
      = some ⟨42, [⟨5, true, 3, 1, false⟩], [9], ⟨0, 11⟩, ⟨1, 22⟩, true, false, 33, true⟩ :=
  ⟨by decide,
   C2_state_roundtrip ⟨42, [⟨5, true, 3, 1, false⟩], [9], ⟨0, 11⟩, ⟨1, 22⟩, true, false, 33, true⟩
     (by decide)⟩

end Flora
